import Mathlib

/-!
Shallow embedding of the Bot Deployment API (src/main.py): a FastAPI service
with an in-memory deployment registry, an in-memory log store, a slug
generator, two HTML template renderers and JSON request handlers.

Python dicts are modelled as association lists (`List (key × value)`), with
`List.lookup` for `d[k]` / `k in d`, append-at-end for insertion of a fresh
key, and `List.eraseP` for `del d[k]`.  A value read with `dict.get(k, d)`
is modelled by `DictField`: the key can be absent, present with Python
`None` (pydantic `.dict()` emits every declared field, `None` when unset),
or present with a value.  f-strings are modelled as lists of pieces
(literal text / substitution sites), concatenated by the renderer.
-/

/-- `BASE_URL = os.getenv("BASE_URL", "http://localhost:8000")` (default taken). -/
def BASE_URL : String := "http://localhost:8000"

/-- Python `str.lower()` for one character, as the character sequence it
produces.  ASCII `A`-`Z` (65-90) shift down by 32.  Dotted capital I (U+0130)
is Unicode's only one-to-many lowercase mapping, to `i` followed by combining
dot above (U+0307), and the Kelvin sign (U+212A) is the only other character
outside ASCII whose lowercase contains any ASCII character, namely `k`.
Every other character is kept unchanged here: its true lowercase is again a
single character outside ASCII, which neither the `[a-z0-9]` hyphen
substitution of `generate_subdomain` nor the ASCII keyword tests of
`handle_chat` can distinguish from the original. -/
def pyLowerCharSeq (c : Char) : List Char :=
  if 65 ≤ c.toNat ∧ c.toNat ≤ 90 then [Char.ofNat (c.toNat + 32)]
  else if c.toNat = 0x130 then ['i', Char.ofNat 0x307]
  else if c.toNat = 0x212A then ['k']
  else [c]

/-- One character of `re.sub(r'[^a-z0-9]', '-', s)`: characters outside `a`-`z` (97-122)
and `0`-`9` (48-57) become a hyphen, the rest are kept. -/
def slugChar (c : Char) : Char :=
  if (97 ≤ c.toNat ∧ c.toNat ≤ 122) ∨ (48 ≤ c.toNat ∧ c.toNat ≤ 57) then c else '-'

/-- `generate_subdomain(botname)`: `re.sub(r'[^a-z0-9]', '-', botname.lower())`. -/
def generate_subdomain (botname : String) : String :=
  String.mk ((botname.data.flatMap pyLowerCharSeq).map slugChar)

/-- A value slot of a Python dict read via `dict.get`: the key can be missing,
bound to `None`, or bound to a value. -/
inductive DictField (α : Type) where
  | absent
  | pynone
  | val (a : α)
deriving DecidableEq

/-- `config.get(key, d)` followed by f-string interpolation for a string-valued slot:
an absent key yields the default, `None` prints as `"None"`, a string prints itself. -/
def fieldGetStr : DictField String → String → String
  | DictField.absent, d => d
  | DictField.pynone, _ => "None"
  | DictField.val s, _ => s

/-- `config.get(key, d)` followed by f-string interpolation for the int-valued
`refreshInterval` slot. -/
def fieldGetInt : DictField Int → Int → String
  | DictField.absent, d => toString d
  | DictField.pynone, _ => "None"
  | DictField.val n, _ => toString n

/-- The dict handed to the template renderers: the six `BotConfig` fields plus
the `botname` key that `create_bot` writes into it. -/
structure ConfigDict where
  title : DictField String
  primaryColor : DictField String
  backgroundColor : DictField String
  apiEndpoint : DictField String
  welcomeMessage : DictField String
  refreshInterval : DictField Int
  botname : DictField String
deriving DecidableEq

/-- The pydantic `BotConfig` request model: every field optional (`None` when unset). -/
structure BotConfig where
  title : Option String
  primaryColor : Option String
  backgroundColor : Option String
  apiEndpoint : Option String
  welcomeMessage : Option String
  refreshInterval : Option Int
deriving DecidableEq

/-- Pydantic `.dict()` keeps every declared field, mapping an unset optional to `None`. -/
def optToField {α : Type} : Option α → DictField α
  | none => DictField.pynone
  | some a => DictField.val a

/-- `request.config.dict()`: all six fields present (possibly `None`), no `botname` key yet. -/
def BotConfig.toDict (c : BotConfig) : ConfigDict :=
  ⟨optToField c.title, optToField c.primaryColor, optToField c.backgroundColor,
   optToField c.apiEndpoint, optToField c.welcomeMessage, optToField c.refreshInterval,
   DictField.absent⟩

/-- `config['botname'] = request.botname`. -/
def configSetBotname (c : ConfigDict) (botname : String) : ConfigDict :=
  ⟨c.title, c.primaryColor, c.backgroundColor, c.apiEndpoint, c.welcomeMessage,
   c.refreshInterval, DictField.val botname⟩

/-- A piece of one of the two HTML f-string templates: literal text, or a
`config.get(field, default)` substitution site with its per-site default. -/
inductive TemplatePiece where
  | lit (s : String)
  | titleSite (d : String)
  | primaryColorSite (d : String)
  | backgroundColorSite (d : String)
  | apiEndpointSite (d : String)
  | welcomeMessageSite (d : String)
  | botnameSite (d : String)
  | refreshIntervalSite (d : Int)
deriving DecidableEq

/-- Evaluate one template piece against a config dict. -/
def renderPiece (cfg : ConfigDict) : TemplatePiece → String
  | TemplatePiece.lit s => s
  | TemplatePiece.titleSite d => fieldGetStr cfg.title d
  | TemplatePiece.primaryColorSite d => fieldGetStr cfg.primaryColor d
  | TemplatePiece.backgroundColorSite d => fieldGetStr cfg.backgroundColor d
  | TemplatePiece.apiEndpointSite d => fieldGetStr cfg.apiEndpoint d
  | TemplatePiece.welcomeMessageSite d => fieldGetStr cfg.welcomeMessage d
  | TemplatePiece.botnameSite d => fieldGetStr cfg.botname d
  | TemplatePiece.refreshIntervalSite d => fieldGetInt cfg.refreshInterval d
/-- The `generate_llm_html` f-string (source lines 68-238), split at its
`config.get` substitution sites; doubled braces of the f-string are rendered
as single braces, written here as hex escapes. -/
def chatTemplate : List TemplatePiece := [
  TemplatePiece.lit "<!DOCTYPE html>\n<html lang=\"en\">\n<head>\n    <meta charset=\"UTF-8\">\n    <meta name=\"viewport\" content=\"width=device-width, initial-scale=1.0\">\n    <title>",
  TemplatePiece.titleSite "AI Chat",
  TemplatePiece.lit "</title>\n    <style>\n        * \x7b margin: 0; padding: 0; box-sizing: border-box; \x7d\n        body \x7b\n            font-family: -apple-system, BlinkMacSystemFont, \x27Segoe UI\x27, Roboto, sans-serif;\n            background: ",
  TemplatePiece.backgroundColorSite "#f5f5f5",
  TemplatePiece.lit ";\n            height: 100vh;\n            display: flex;\n            justify-content: center;\n            align-items: center;\n        \x7d\n        .chat-container \x7b\n            width: 100%;\n            max-width: 600px;\n            height: 80vh;\n            background: white;\n            border-radius: 12px;\n            box-shadow: 0 4px 20px rgba(0,0,0,0.1);\n            display: flex;\n            flex-direction: column;\n            overflow: hidden;\n        \x7d\n        .chat-header \x7b\n            background: ",
  TemplatePiece.primaryColorSite "#007bff",
  TemplatePiece.lit ";\n            color: white;\n            padding: 1rem;\n            text-align: center;\n            font-weight: 600;\n        \x7d\n        .messages \x7b\n            flex: 1;\n            overflow-y: auto;\n            padding: 1rem;\n            background: #fafafa;\n        \x7d\n        .message \x7b\n            margin-bottom: 1rem;\n            padding: 0.8rem 1rem;\n            border-radius: 8px;\n            max-width: 80%;\n        \x7d\n        .user-message \x7b\n            background: ",
  TemplatePiece.primaryColorSite "#007bff",
  TemplatePiece.lit ";\n            color: white;\n            margin-left: auto;\n        \x7d\n        .bot-message \x7b\n            background: white;\n            border: 1px solid #e0e0e0;\n        \x7d\n        .input-area \x7b\n            padding: 1rem;\n            background: white;\n            border-top: 1px solid #e0e0e0;\n            display: flex;\n            gap: 0.5rem;\n        \x7d\n        .message-input \x7b\n            flex: 1;\n            padding: 0.8rem;\n            border: 1px solid #ddd;\n            border-radius: 6px;\n            outline: none;\n        \x7d\n        .send-btn \x7b\n            padding: 0.8rem 1.5rem;\n            background: ",
  TemplatePiece.primaryColorSite "#007bff",
  TemplatePiece.lit ";\n            color: white;\n            border: none;\n            border-radius: 6px;\n            cursor: pointer;\n            font-weight: 600;\n        \x7d\n        .send-btn:hover \x7b\n            opacity: 0.9;\n        \x7d\n        .typing \x7b\n            font-style: italic;\n            opacity: 0.7;\n        \x7d\n    </style>\n</head>\n<body>\n    <div class=\"chat-container\">\n        <div class=\"chat-header\">\n            ",
  TemplatePiece.titleSite "AI Assistant",
  TemplatePiece.lit "\n        </div>\n        <div class=\"messages\" id=\"messages\">\n            <div class=\"message bot-message\">\n                ",
  TemplatePiece.welcomeMessageSite "Hello! How can I help you today?",
  TemplatePiece.lit "\n            </div>\n        </div>\n        <div class=\"input-area\">\n            <input type=\"text\" class=\"message-input\" id=\"messageInput\" placeholder=\"Type your message...\">\n            <button class=\"send-btn\" onclick=\"sendMessage()\">Send</button>\n        </div>\n    </div>\n\n    <script>\n        const messagesContainer = document.getElementById(\x27messages\x27);\n        const messageInput = document.getElementById(\x27messageInput\x27);\n        const API_ENDPOINT = \x27",
  TemplatePiece.apiEndpointSite (BASE_URL ++ "/api/chat"),
  TemplatePiece.lit "\x27;\n        const BOTNAME = \x27",
  TemplatePiece.botnameSite "default",
  TemplatePiece.lit "\x27;\n\n        function addMessage(content, isUser = false) \x7b\n            const messageDiv = document.createElement(\x27div\x27);\n            messageDiv.className = \x60message $\x7bisUser ? \x27user-message\x27 : \x27bot-message\x27\x7d\x60;\n            messageDiv.textContent = content;\n            messagesContainer.appendChild(messageDiv);\n            messagesContainer.scrollTop = messagesContainer.scrollHeight;\n        \x7d\n\n        function showTyping() \x7b\n            const typingDiv = document.createElement(\x27div\x27);\n            typingDiv.className = \x27message bot-message typing\x27;\n            typingDiv.textContent = \x27Bot is typing...\x27;\n            typingDiv.id = \x27typing-indicator\x27;\n            messagesContainer.appendChild(typingDiv);\n            messagesContainer.scrollTop = messagesContainer.scrollHeight;\n        \x7d\n\n        function removeTyping() \x7b\n            const typing = document.getElementById(\x27typing-indicator\x27);\n            if (typing) typing.remove();\n        \x7d\n\n        async function sendMessage() \x7b\n            const message = messageInput.value.trim();\n            if (!message) return;\n\n            addMessage(message, true);\n            messageInput.value = \x27\x27;\n            showTyping();\n\n            try \x7b\n                const response = await fetch(API_ENDPOINT, \x7b\n                    method: \x27POST\x27,\n                    headers: \x7b \x27Content-Type\x27: \x27application/json\x27 \x7d,\n                    body: JSON.stringify(\x7b\n                        botname: BOTNAME,\n                        userMessage: message,\n                        timestamp: new Date().toISOString()\n                    \x7d)\n                \x7d);\n\n                const data = await response.json();\n                removeTyping();\n\n                if (data.botResponse) \x7b\n                    addMessage(data.botResponse);\n                \x7d else \x7b\n                    addMessage(\x27Sorry, I encountered an error. Please try again.\x27);\n                \x7d\n            \x7d catch (error) \x7b\n                removeTyping();\n                addMessage(\x27Connection error. Please check your internet and try again.\x27);\n                console.error(\x27Chat error:\x27, error);\n            \x7d\n        \x7d\n\n        messageInput.addEventListener(\x27keypress\x27, function(e) \x7b\n            if (e.key === \x27Enter\x27) sendMessage();\n        \x7d);\n    </script>\n</body>\n</html>"]

/-- The `generate_logs_html` f-string (source lines 242-447), split at its
`config.get` substitution sites. -/
def logsTemplate : List TemplatePiece := [
  TemplatePiece.lit "<!DOCTYPE html>\n<html lang=\"en\">\n<head>\n    <meta charset=\"UTF-8\">\n    <meta name=\"viewport\" content=\"width=device-width, initial-scale=1.0\">\n    <title>",
  TemplatePiece.titleSite "Logs Dashboard",
  TemplatePiece.lit "</title>\n    <style>\n        * \x7b margin: 0; padding: 0; box-sizing: border-box; \x7d\n        body \x7b\n            font-family: -apple-system, BlinkMacSystemFont, \x27Segoe UI\x27, Roboto, sans-serif;\n            background: ",
  TemplatePiece.backgroundColorSite "#f5f5f5",
  TemplatePiece.lit ";\n            padding: 1rem;\n        \x7d\n        .dashboard \x7b\n            max-width: 1200px;\n            margin: 0 auto;\n        \x7d\n        .header \x7b\n            background: white;\n            padding: 1.5rem;\n            border-radius: 8px;\n            margin-bottom: 1rem;\n            box-shadow: 0 2px 4px rgba(0,0,0,0.1);\n        \x7d\n        .title \x7b\n            color: ",
  TemplatePiece.primaryColorSite "#333",
  TemplatePiece.lit ";\n            font-size: 1.5rem;\n            font-weight: 600;\n        \x7d\n        .controls \x7b\n            background: white;\n            padding: 1rem;\n            border-radius: 8px;\n            margin-bottom: 1rem;\n            display: flex;\n            gap: 1rem;\n            align-items: center;\n            box-shadow: 0 2px 4px rgba(0,0,0,0.1);\n        \x7d\n        .filter-select, .refresh-btn \x7b\n            padding: 0.5rem;\n            border: 1px solid #ddd;\n            border-radius: 4px;\n            outline: none;\n        \x7d\n        .refresh-btn \x7b\n            background: ",
  TemplatePiece.primaryColorSite "#007bff",
  TemplatePiece.lit ";\n            color: white;\n            cursor: pointer;\n            font-weight: 500;\n        \x7d\n        .logs-container \x7b\n            background: white;\n            border-radius: 8px;\n            overflow: hidden;\n            box-shadow: 0 2px 4px rgba(0,0,0,0.1);\n        \x7d\n        .logs-table \x7b\n            width: 100%;\n            border-collapse: collapse;\n        \x7d\n        .logs-table th \x7b\n            background: #f8f9fa;\n            padding: 1rem;\n            text-align: left;\n            border-bottom: 1px solid #dee2e6;\n            font-weight: 600;\n        \x7d\n        .logs-table td \x7b\n            padding: 0.8rem 1rem;\n            border-bottom: 1px solid #dee2e6;\n        \x7d\n        .log-level \x7b\n            padding: 0.25rem 0.5rem;\n            border-radius: 4px;\n            font-size: 0.8rem;\n            font-weight: 500;\n        \x7d\n        .level-info \x7b background: #d1ecf1; color: #0c5460; \x7d\n        .level-success \x7b background: #d4edda; color: #155724; \x7d\n        .level-warning \x7b background: #fff3cd; color: #856404; \x7d\n        .level-error \x7b background: #f8d7da; color: #721c24; \x7d\n        .auto-refresh \x7b\n            margin-left: auto;\n            display: flex;\n            align-items: center;\n            gap: 0.5rem;\n        \x7d\n        .status-dot \x7b\n            width: 8px;\n            height: 8px;\n            border-radius: 50%;\n            background: #28a745;\n        \x7d\n    </style>\n</head>\n<body>\n    <div class=\"dashboard\">\n        <div class=\"header\">\n            <h1 class=\"title\">",
  TemplatePiece.titleSite "Bot Logs Dashboard",
  TemplatePiece.lit "</h1>\n        </div>\n        \n        <div class=\"controls\">\n            <select class=\"filter-select\" id=\"levelFilter\">\n                <option value=\"all\">All Levels</option>\n                <option value=\"info\">Info</option>\n                <option value=\"success\">Success</option>\n                <option value=\"warning\">Warning</option>\n                <option value=\"error\">Error</option>\n            </select>\n            \n            <button class=\"refresh-btn\" onclick=\"fetchLogs()\">Refresh</button>\n            \n            <div class=\"auto-refresh\">\n                <div class=\"status-dot\"></div>\n                <span>Auto-refresh: ",
  TemplatePiece.refreshIntervalSite 3000,
  TemplatePiece.lit "ms</span>\n            </div>\n        </div>\n        \n        <div class=\"logs-container\">\n            <table class=\"logs-table\">\n                <thead>\n                    <tr>\n                        <th>Timestamp</th>\n                        <th>Level</th>\n                        <th>Message</th>\n                        <th>Bot</th>\n                    </tr>\n                </thead>\n                <tbody id=\"logsTableBody\">\n                    <tr>\n                        <td colspan=\"4\" style=\"text-align: center; padding: 2rem;\">\n                            Loading logs...\n                        </td>\n                    </tr>\n                </tbody>\n            </table>\n        </div>\n    </div>\n\n    <script>\n        const API_ENDPOINT = \x27",
  TemplatePiece.apiEndpointSite (BASE_URL ++ "/api/logs"),
  TemplatePiece.lit "\x27;\n        const BOTNAME = \x27",
  TemplatePiece.botnameSite "default",
  TemplatePiece.lit "\x27;\n        const REFRESH_INTERVAL = ",
  TemplatePiece.refreshIntervalSite 3000,
  TemplatePiece.lit ";\n        \n        function formatTimestamp(timestamp) \x7b\n            return new Date(timestamp).toLocaleString();\n        \x7d\n        \n        function getLevelClass(level) \x7b\n            return \x60level-$\x7blevel\x7d\x60;\n        \x7d\n        \n        function renderLogs(logs) \x7b\n            const tbody = document.getElementById(\x27logsTableBody\x27);\n            \n            if (!logs || logs.length === 0) \x7b\n                tbody.innerHTML = \x27<tr><td colspan=\"4\" style=\"text-align: center; padding: 2rem;\">No logs found</td></tr>\x27;\n                return;\n            \x7d\n            \n            tbody.innerHTML = logs.map(log => \x60\n                <tr>\n                    <td>$\x7bformatTimestamp(log.timestamp)\x7d</td>\n                    <td><span class=\"log-level $\x7bgetLevelClass(log.level)\x7d\">$\x7blog.level.toUpperCase()\x7d</span></td>\n                    <td>$\x7blog.message\x7d</td>\n                    <td>$\x7blog.botname || BOTNAME\x7d</td>\n                </tr>\n            \x60).join(\x27\x27);\n        \x7d\n        \n        async function fetchLogs() \x7b\n            const level = document.getElementById(\x27levelFilter\x27).value;\n            \n            try \x7b\n                const response = await fetch(API_ENDPOINT, \x7b\n                    method: \x27POST\x27,\n                    headers: \x7b \x27Content-Type\x27: \x27application/json\x27 \x7d,\n                    body: JSON.stringify(\x7b\n                        botname: BOTNAME,\n                        level: level,\n                        limit: 50,\n                        timestamp: new Date().toISOString()\n                    \x7d)\n                \x7d);\n                \n                const data = await response.json();\n                renderLogs(data.logs);\n            \x7d catch (error) \x7b\n                console.error(\x27Failed to fetch logs:\x27, error);\n                document.getElementById(\x27logsTableBody\x27).innerHTML = \n                    \x27<tr><td colspan=\"4\" style=\"text-align: center; padding: 2rem; color: #dc3545;\">Failed to load logs</td></tr>\x27;\n            \x7d\n        \x7d\n        \n        // Initial load\n        fetchLogs();\n        \n        // Auto-refresh\n        setInterval(fetchLogs, REFRESH_INTERVAL);\n        \n        // Filter change handler\n        document.getElementById(\x27levelFilter\x27).addEventListener(\x27change\x27, fetchLogs);\n    </script>\n</body>\n</html>"]

/-- `generate_llm_html(config)`: the chat template f-string evaluated against `config`. -/
def generate_llm_html (config : ConfigDict) : String :=
  String.join (chatTemplate.map (renderPiece config))

/-- `generate_logs_html(config)`: the dashboard template f-string evaluated against `config`. -/
def generate_logs_html (config : ConfigDict) : String :=
  String.join (logsTemplate.map (renderPiece config))

/-- A stored log line: `{"timestamp": ..., "level": ..., "message": ..., "botname": ...}`. -/
structure LogEntry where
  timestamp : String
  level : String
  message : String
  botname : String
deriving DecidableEq

/-- The global `logs: Dict[str, List[Dict]]`, as an insertion-ordered association list. -/
abbrev LogStore : Type := List (String × List LogEntry)

/-- A stored deployment record, as assembled by `create_bot`. -/
structure Deployment where
  id : String
  botname : String
  subdomain : String
  frontendType : String
  config : ConfigDict
  html : String
  created : String
  status : String
deriving DecidableEq

/-- The global `deployments: Dict[str, Dict]`, as an insertion-ordered association list. -/
abbrev DeployStore : Type := List (String × Deployment)

/-- `pat.isPrefixOf l` written out: does `pat` lead the list `l`? -/
def leadsWith : List Char → List Char → Bool
  | [], _ => true
  | _ :: _, [] => false
  | p :: ps, c :: cs => p == c && leadsWith ps cs

/-- Does `pat` occur contiguously inside `l`?  (Python `pat in s` on the char list.) -/
def occursIn (pat : List Char) : List Char → Bool
  | [] => pat.isEmpty
  | c :: rest => leadsWith pat (c :: rest) || occursIn pat rest

/-- Python substring test `pat in s`. -/
def strContains (s pat : String) : Bool :=
  occursIn pat.data s.data

/-- Python `s.lower()`: each character's lowercase sequence, concatenated. -/
def pyLowerStr (s : String) : String :=
  String.mk (s.data.flatMap pyLowerCharSeq)

/-- The keyword-matching response of `handle_chat`: default echo, overridden in
order by the `hello` / `how are you` / `help` substring checks on the
lower-cased message.  The greeting's last four characters are the mojibake
bytes stored in the source file (U+00F0 U+0178 U+2018 U+2039). -/
def chat_reply (userMessage : String) : String :=
  if strContains (pyLowerStr userMessage) "hello" then
    "Hello! Nice to meet you! ðŸ‘‹"
  else if strContains (pyLowerStr userMessage) "how are you" then
    "I\x27m doing great! Thanks for asking. How can I help you today?"
  else if strContains (pyLowerStr userMessage) "help" then
    "I\x27m here to help! Ask me anything and I\x27ll do my best to assist you."
  else
    "You said: " ++ userMessage

/-- `if botname not in logs: logs[botname] = []` — lazily create the sequence. -/
def ensureKey (store : LogStore) (name : String) : LogStore :=
  if (store.lookup name).isSome then store
  else store ++ [(name, [])]

/-- `logs[name].append(e)`: append to the value held at `name`, in place. -/
def appendEntry (store : LogStore) (name : String) (e : LogEntry) : LogStore :=
  store.map
    (fun p => if p.1 == name then (p.1, p.2 ++ [e]) else p)

/-- The JSON answer of `handle_chat`. -/
structure ChatResponse where
  botResponse : String
  timestamp : String
deriving DecidableEq

/-- `handle_chat(request)`: log the inbound message at level `info`, compute the
keyword-matched response, log it at level `success`, and return the response.
`t1`, `t2`, `t3` are the three `datetime.now().isoformat()` calls in source order. -/
def handle_chat (store : LogStore) (botname userMessage : String)
    (t1 t2 t3 : String) : LogStore × ChatResponse :=
  let e1 : LogEntry := ⟨t1, "info", "User: " ++ userMessage, botname⟩
  let store1 := appendEntry (ensureKey store botname) botname e1
  let resp := chat_reply userMessage
  let e2 : LogEntry := ⟨t2, "success", "Bot: " ++ resp, botname⟩
  let store2 := appendEntry store1 botname e2
  (store2, ⟨resp, t3⟩)

/-- `logs.get(request.botname, [])`. -/
def botLogs (store : LogStore) (botname : String) : List LogEntry :=
  (store.lookup botname).getD []

/-- `if request.level and request.level != "all": ... filter ...` — the Python
truthiness test means the empty string also skips filtering. -/
def levelFiltered (l : List LogEntry) (level : String) : List LogEntry :=
  if (level != "") && (level != "all") then l.filter (fun e => e.level == level) else l

/-- The Python slice `l[-limit:]` for an `int` limit: a positive limit keeps the
last `limit` elements; `limit = 0` gives `l[0:] = l`; a negative limit drops
the first `-limit` elements. -/
def pyTail {α : Type} (l : List α) (limit : Int) : List α :=
  if 0 < limit then l.drop (l.length - limit.toNat) else l.drop (-limit).toNat

/-- The JSON answer of `get_logs`: the entry list plus `count = len(limited_logs)`. -/
structure LogsResult where
  logs : List LogEntry
  count : Nat
deriving DecidableEq

/-- `get_logs(request)`: fetch, filter by level, slice `[-limit:]`, reverse. -/
def get_logs (store : LogStore) (botname level : String) (limit : Int) : LogsResult :=
  let all_logs := botLogs store botname
  let filtered := levelFiltered all_logs level
  let limited_logs := pyTail filtered limit
  ⟨limited_logs.reverse, limited_logs.length⟩

/-- What `create_bot` answers: the conflict payload (an HTTP 200 body), the
success payload, or an `HTTPException` status/detail pair. -/
inductive CreateResult where
  | conflict (error existing_url : String)
  | success (url botname frontendType status : String)
  | httpError (status_code : Nat) (detail : String)
deriving DecidableEq

/-- The detail of the `HTTPException(400)` raised for an unknown `frontendType`. -/
def invalidTypeDetail : String := "Invalid frontendType. Must be \"LLM\" or \"Logs\""

/-- `create_bot(request)`.  The whole body runs inside `try: ... except Exception as e:
raise HTTPException(500, f"Internal server error: {str(e)}")`; since FastAPI's
`HTTPException` is an `Exception`, the `HTTPException(400, ...)` raised on the
invalid-frontendType branch is caught by that handler and surfaces as a 500
whose detail wraps `str(e) = "400: <detail>"`.  `uid` is `str(uuid.uuid4())`,
`now` is `datetime.now().isoformat()`. -/
def create_bot (store : DeployStore) (botname frontendType : String)
    (config : BotConfig) (uid now : String) : DeployStore × CreateResult :=
  let subdomain := generate_subdomain botname
  if ((store.lookup subdomain)).isSome then
    (store, CreateResult.conflict "Botname already exists" (BASE_URL ++ "/bot/" ++ subdomain))
  else
    let cfg := configSetBotname config.toDict botname
    if frontendType == "LLM" then
      let html := generate_llm_html cfg
      (store ++
         [(subdomain, Deployment.mk uid botname subdomain frontendType cfg html now "deployed")],
       CreateResult.success (BASE_URL ++ "/bot/" ++ subdomain) botname frontendType "deployed")
    else if frontendType == "Logs" then
      let html := generate_logs_html cfg
      (store ++
         [(subdomain, Deployment.mk uid botname subdomain frontendType cfg html now "deployed")],
       CreateResult.success (BASE_URL ++ "/bot/" ++ subdomain) botname frontendType "deployed")
    else
      (store, CreateResult.httpError 500 ("Internal server error: " ++ "400: " ++ invalidTypeDetail))

/-- What `serve_bot_frontend` answers: 404, or the stored HTML verbatim. -/
inductive ServeResult where
  | notFound (detail : String)
  | html (content : String)
deriving DecidableEq

/-- `serve_bot_frontend(subdomain)`. -/
def serve_bot_frontend (store : DeployStore) (subdomain : String) : ServeResult :=
  match (store.lookup subdomain) with
  | none => ServeResult.notFound ("Bot \x27" ++ subdomain ++ "\x27 not found")
  | some d => ServeResult.html d.html

/-- What `get_deployment_status` answers: 404, or the public summary. -/
inductive StatusResult where
  | notFound (detail : String)
  | ok (botname status created frontendType : String)
deriving DecidableEq

/-- `get_deployment_status(subdomain)`. -/
def get_deployment_status (store : DeployStore) (subdomain : String) : StatusResult :=
  match (store.lookup subdomain) with
  | none => StatusResult.notFound "Deployment not found"
  | some d => StatusResult.ok d.botname d.status d.created d.frontendType

/-- What `delete_deployment` answers: 404, or the confirmation message. -/
inductive DeleteResult where
  | notFound (detail : String)
  | ok (message : String)
deriving DecidableEq

/-- `delete_deployment(subdomain)`: 404 on an unknown slug, otherwise
`del deployments[subdomain]` plus a confirmation naming the stored botname. -/
def delete_deployment (store : DeployStore) (subdomain : String) :
    DeployStore × DeleteResult :=
  match (store.lookup subdomain) with
  | none => (store, DeleteResult.notFound "Deployment not found")
  | some d =>
      (store.eraseP (fun p => p.1 == subdomain),
       DeleteResult.ok ("Bot \x27" ++ d.botname ++ "\x27 deleted successfully"))

/-- The whole mutable state of the service: the two module-level dicts. -/
structure ServerState where
  deployments : DeployStore
  logs : LogStore

/-- States the service reaches from the empty maps by executing request
handlers.  `create_bot`, `handle_chat` and `delete_deployment` are the only
handlers that write to the global dicts; `serve_bot_frontend`,
`get_deployment_status`, `list_deployments`, `get_logs`, `health_check` and
the landing page only read. -/
inductive Reachable : ServerState → Prop where
  | init : Reachable ⟨[], []⟩
  | createStep (s : ServerState) (h : Reachable s) (botname frontendType : String)
      (config : BotConfig) (uid now : String) :
      Reachable ⟨(create_bot s.deployments botname frontendType config uid now).1, s.logs⟩
  | chatStep (s : ServerState) (h : Reachable s) (botname userMessage t1 t2 t3 : String) :
      Reachable ⟨s.deployments, (handle_chat s.logs botname userMessage t1 t2 t3).1⟩
  | deleteStep (s : ServerState) (h : Reachable s) (subdomain : String) :
      Reachable ⟨(delete_deployment s.deployments subdomain).1, s.logs⟩

/-- Modelled from the spec: the claimed log-query semantics as written —
keep entries whose level equals the filter (the sentinel "all" disables
filtering) in append order, keep the last `limit` of them, return them
reversed. -/
def querySpecStrict (entries : List LogEntry) (level : String) (limit : Nat) : List LogEntry :=
  let kept := if level = "all" then entries else entries.filter (fun e => e.level == level)
  (kept.drop (kept.length - limit)).reverse

/-- The amended log-query semantics: as `querySpecStrict`, except that the
empty filter string also disables filtering (Python string truthiness). -/
def querySpecAmended (entries : List LogEntry) (level : String) (limit : Nat) : List LogEntry :=
  let kept := if level = "all" ∨ level = "" then entries
              else entries.filter (fun e => e.level == level)
  (kept.drop (kept.length - limit)).reverse

/-- The defaults at the title substitution sites of a template, in document order. -/
def titleDefaults (t : List TemplatePiece) : List String :=
  t.filterMap (fun p => match p with | TemplatePiece.titleSite d => some d | _ => none)

/-- The defaults at the primaryColor substitution sites of a template, in document order. -/
def primaryColorDefaults (t : List TemplatePiece) : List String :=
  t.filterMap (fun p => match p with | TemplatePiece.primaryColorSite d => some d | _ => none)

/-- Sample log entries for concrete test vectors (levels as in the spec's example). -/
def entInfo1 : LogEntry := ⟨"t1", "info", "m1", "x"⟩

def entSuccess : LogEntry := ⟨"t2", "success", "m2", "x"⟩

def entInfo2 : LogEntry := ⟨"t3", "info", "m3", "x"⟩

def entError : LogEntry := ⟨"t4", "error", "m4", "x"⟩

/-- A log store holding the spec's example sequence [info, success, info, error]. -/
def sampleLogStore : LogStore := [("x", [entInfo1, entSuccess, entInfo2, entError])]

/-- A `BotConfig` with every optional field unset. -/
def emptyBotConfig : BotConfig := ⟨none, none, none, none, none, none⟩

/-- A stored deployment under slug "bot-a". -/
def sampleDeployment : Deployment :=
  ⟨"uid-1", "Bot A", "bot-a", "LLM",
   ⟨DictField.pynone, DictField.pynone, DictField.pynone, DictField.pynone,
    DictField.pynone, DictField.pynone, DictField.val "Bot A"⟩,
   "HTML-A", "2024-01-01T00:00:00", "deployed"⟩

/-- A second stored deployment under slug "bot-b". -/
def otherDeployment : Deployment :=
  ⟨"uid-2", "Bot B", "bot-b", "Logs",
   ⟨DictField.pynone, DictField.pynone, DictField.pynone, DictField.pynone,
    DictField.pynone, DictField.pynone, DictField.val "Bot B"⟩,
   "HTML-B", "2024-01-02T00:00:00", "deployed"⟩
theorem lookup_none_of_not_mem {β : Type} (k : String) :
    ∀ (store : List (String × β)), k ∉ store.map Prod.fst → store.lookup k = none := by
  intro store
  induction store with
  | nil => intro _; rfl
  | cons a rest ih =>
    intro h
    obtain ⟨ak, av⟩ := a
    simp only [List.map_cons, List.mem_cons] at h
    push_neg at h
    simp [List.lookup_cons, beq_false_of_ne h.1, ih h.2]

theorem lookup_eraseP_ne {β : Type} (k k' : String) (h : k' ≠ k) :
    ∀ (store : List (String × β)),
      (store.eraseP (fun p => p.1 == k)).lookup k' = store.lookup k' := by
  intro store
  induction store with
  | nil => rfl
  | cons a rest ih =>
    obtain ⟨ak, av⟩ := a
    by_cases hk : ak = k
    · subst hk
      simp [List.eraseP_cons, List.lookup_cons, beq_false_of_ne h]
    · by_cases hk' : k' = ak
      · subst hk'
        simp [List.eraseP_cons, List.lookup_cons, beq_false_of_ne hk]
      · simp [List.eraseP_cons, List.lookup_cons, beq_false_of_ne hk',
              beq_false_of_ne hk, ih]

theorem lookup_eraseP_self {β : Type} (k : String) :
    ∀ (store : List (String × β)), (store.map Prod.fst).Nodup →
      (store.eraseP (fun p => p.1 == k)).lookup k = none := by
  intro store
  induction store with
  | nil => intro _; rfl
  | cons a rest ih =>
    intro hnd
    obtain ⟨ak, av⟩ := a
    simp only [List.map_cons, List.nodup_cons] at hnd
    by_cases hk : ak = k
    · subst hk
      simp [List.eraseP_cons, lookup_none_of_not_mem ak rest hnd.1]
    · simp [List.eraseP_cons, List.lookup_cons, beq_false_of_ne hk,
            beq_false_of_ne (fun h2 => hk h2.symm), ih hnd.2]

theorem lookup_append {β : Type} (k : String) (l1 l2 : List (String × β)) :
    (l1 ++ l2).lookup k =
      match l1.lookup k with
      | some v => some v
      | none => l2.lookup k := by
  induction l1 with
  | nil => simp
  | cons a rest ih =>
    obtain ⟨ak, av⟩ := a
    by_cases hk : k = ak
    · subst hk
      simp [List.lookup_cons]
    · simp [List.lookup_cons, beq_false_of_ne hk, ih]

theorem lookup_appendEntry_self (n : String) (e : LogEntry) :
    ∀ (store : LogStore),
      (appendEntry store n e).lookup n = (store.lookup n).map (fun l => l ++ [e]) := by
  intro store
  induction store with
  | nil => rfl
  | cons a rest ih =>
    obtain ⟨ak, av⟩ := a
    by_cases hk : ak = n
    · subst hk
      simp [appendEntry, List.lookup_cons]
    · simp [appendEntry, List.lookup_cons, hk, beq_false_of_ne hk,
            beq_false_of_ne (fun h2 => hk h2.symm)] at ih ⊢
      exact ih

theorem lookup_appendEntry_ne (n m : String) (e : LogEntry) (h : m ≠ n) :
    ∀ (store : LogStore),
      (appendEntry store n e).lookup m = store.lookup m := by
  intro store
  induction store with
  | nil => rfl
  | cons a rest ih =>
    obtain ⟨ak, av⟩ := a
    by_cases hk : ak = n
    · subst hk
      simp [appendEntry, List.lookup_cons, beq_false_of_ne h] at ih ⊢
      exact ih
    · by_cases hm : m = ak
      · subst hm
        simp [appendEntry, List.lookup_cons, hk]
      · simp [appendEntry, List.lookup_cons, hk, beq_false_of_ne hm] at ih ⊢
        exact ih

theorem lookup_ensureKey_self (store : LogStore) (n : String) :
    (ensureKey store n).lookup n = some ((store.lookup n).getD []) := by
  unfold ensureKey
  cases h : store.lookup n with
  | some l => simp [h]
  | none =>
    simp [h, lookup_append]

theorem lookup_ensureKey_ne (store : LogStore) (n m : String) (h : m ≠ n) :
    (ensureKey store n).lookup m = store.lookup m := by
  unfold ensureKey
  cases hl : store.lookup n with
  | some l => simp
  | none =>
    simp [lookup_append]
    cases hm : store.lookup m with
    | some v => simp
    | none => simp [List.lookup_cons, beq_false_of_ne h]

theorem handle_chat_logs_self (store : LogStore) (botname userMessage t1 t2 t3 : String) :
    ((handle_chat store botname userMessage t1 t2 t3).1).lookup botname =
      some (((store.lookup botname).getD []) ++
        [⟨t1, "info", "User: " ++ userMessage, botname⟩,
         ⟨t2, "success", "Bot: " ++ chat_reply userMessage, botname⟩]) := by
  unfold handle_chat
  simp [lookup_appendEntry_self, lookup_ensureKey_self]

theorem handle_chat_logs_ne (store : LogStore) (botname userMessage t1 t2 t3 m : String)
    (h : m ≠ botname) :
    ((handle_chat store botname userMessage t1 t2 t3).1).lookup m = store.lookup m := by
  unfold handle_chat
  simp [lookup_appendEntry_ne _ _ _ h, lookup_ensureKey_ne _ _ _ h]

theorem reachable_log_levels :
    ∀ (s : ServerState), Reachable s →
      ∀ (name : String) (entries : List LogEntry), s.logs.lookup name = some entries →
        ∀ e ∈ entries, e.level = "info" ∨ e.level = "success" := by
  intro s h
  induction h with
  | init =>
    intro name entries h1
    simp at h1
  | createStep s hr botname ft cfg uid now ih => exact ih
  | chatStep s hr botname msg t1 t2 t3 ih =>
    intro name entries hl e he
    by_cases hn : name = botname
    · subst hn
      rw [show (ServerState.mk s.deployments (handle_chat s.logs name msg t1 t2 t3).1).logs
            = (handle_chat s.logs name msg t1 t2 t3).1 from rfl] at hl
      rw [handle_chat_logs_self] at hl
      have hent := Option.some.inj hl
      subst hent
      rcases List.mem_append.mp he with hold | hnew
      · cases hB : s.logs.lookup name with
        | none => rw [hB] at hold; simp at hold
        | some l =>
          rw [hB] at hold
          exact ih name l hB e hold
      · simp only [List.mem_cons, List.not_mem_nil, or_false] at hnew
        rcases hnew with h1 | h1
        · left; rw [h1]
        · right; rw [h1]
    · rw [show (ServerState.mk s.deployments (handle_chat s.logs botname msg t1 t2 t3).1).logs
            = (handle_chat s.logs botname msg t1 t2 t3).1 from rfl] at hl
      rw [handle_chat_logs_ne _ _ _ _ _ _ _ hn] at hl
      exact ih name entries hl e he
  | deleteStep s hr sub ih => exact ih

theorem pyTail_nonpos {α : Type} (l : List α) (limit : Int) (h : limit ≤ 0) :
    pyTail l limit = l.drop (-limit).toNat := by
  unfold pyTail
  rw [if_neg (by omega)]

theorem pyTail_ge_length {α : Type} (l : List α) (limit : Int)
    (h : (l.length : Int) ≤ limit) :
    pyTail l limit = l := by
  unfold pyTail
  by_cases h0 : 0 < limit
  · rw [if_pos h0]
    have h1 : l.length - limit.toNat = 0 := by omega
    rw [h1, List.drop_zero]
  · rw [if_neg h0]
    have h1 : (-limit).toNat = 0 := by omega
    rw [h1, List.drop_zero]

theorem levelFiltered_eq_kept (l : List LogEntry) (level : String) :
    levelFiltered l level =
      if level = "all" ∨ level = "" then l
      else l.filter (fun e => e.level == level) := by
  unfold levelFiltered
  by_cases h1 : level = "all"
  · simp [h1]
  · by_cases h2 : level = ""
    · simp [h2]
    · simp [h1, h2]

theorem get_logs_pos_spec (store : LogStore) (botname level : String) (limit : Int)
    (h : 0 < limit) :
    (get_logs store botname level limit).logs =
      querySpecAmended (botLogs store botname) level limit.toNat := by
  simp only [get_logs, querySpecAmended, pyTail, levelFiltered_eq_kept]
  rw [if_pos h]

theorem slugChar_pos (c : Char)
    (h : (97 ≤ c.toNat ∧ c.toNat ≤ 122) ∨ (48 ≤ c.toNat ∧ c.toNat ≤ 57)) :
    slugChar c = c := by
  unfold slugChar
  exact if_pos h

theorem slugChar_neg (c : Char)
    (h : ¬((97 ≤ c.toNat ∧ c.toNat ≤ 122) ∨ (48 ≤ c.toNat ∧ c.toNat ≤ 57))) :
    slugChar c = '-' := by
  unfold slugChar
  exact if_neg h

theorem pyLowerCharSeq_ascii (c : Char) (h1 : ¬(65 ≤ c.toNat ∧ c.toNat ≤ 90))
    (h2 : c.toNat < 128) :
    pyLowerCharSeq c = [c] := by
  unfold pyLowerCharSeq
  rw [if_neg h1, if_neg (by omega), if_neg (by omega)]

theorem pyLowerCharSeq_ascii_length (c : Char) (h : c.toNat < 128) :
    (pyLowerCharSeq c).length = 1 := by
  unfold pyLowerCharSeq
  by_cases h1 : 65 ≤ c.toNat ∧ c.toNat ≤ 90
  · rw [if_pos h1]
    rfl
  · rw [if_neg h1, if_neg (by omega), if_neg (by omega)]
    rfl

theorem ascii_lower_length (l : List Char) (h : ∀ c ∈ l, c.toNat < 128) :
    (l.flatMap pyLowerCharSeq).length = l.length := by
  induction l with
  | nil => rfl
  | cons c rest ih =>
    rw [List.flatMap_cons, List.length_append,
        pyLowerCharSeq_ascii_length c (h c (List.mem_cons_self c rest)),
        ih (fun d hd => h d (List.mem_cons_of_mem c hd)), List.length_cons]
    omega

theorem slugChar_lower_fixed (e : Char) :
    (pyLowerCharSeq (slugChar e)).map slugChar = [slugChar e] := by
  by_cases h : (97 ≤ e.toNat ∧ e.toNat ≤ 122) ∨ (48 ≤ e.toNat ∧ e.toNat ≤ 57)
  · rw [slugChar_pos e h, pyLowerCharSeq_ascii e (by omega) (by omega)]
    simp [slugChar_pos e h]
  · rw [slugChar_neg e h]
    decide

theorem flatMap_slug_idem (L : List Char) :
    ((L.map slugChar).flatMap pyLowerCharSeq).map slugChar = L.map slugChar := by
  induction L with
  | nil => rfl
  | cons c rest ih =>
    rw [List.map_cons, List.flatMap_cons, List.map_append, slugChar_lower_fixed c, ih]
    rfl

theorem generate_subdomain_idem (s : String) :
    generate_subdomain (generate_subdomain s) = generate_subdomain s := by
  unfold generate_subdomain
  exact congrArg String.mk (flatMap_slug_idem (s.data.flatMap pyLowerCharSeq))

/-- C1 counterexample: with one stored entry and limit 0 (so limit ≤ 0), the
query does not return an empty list — the Python slice `l[-0:]` is `l[0:]`,
the whole list. -/
theorem c1_counterexample_limit_zero :
    ((0 : Int) ≤ 0) ∧ (get_logs [("x", [entInfo1])] "x" "all" 0).logs ≠ [] := by
  decide

/-- C1 (amended): for `limit ≤ 0` the query returns the post-filter entries
with the first `-limit` of them dropped (so `limit = 0` returns all of them),
reversed; and any `limit` at least the number of post-filter entries returns
all of them, reversed (most-recent-first). -/
theorem c1_logs_limit_bounds :
    ∀ (store : LogStore) (botname level : String) (limit : Int),
      (limit ≤ 0 →
        (get_logs store botname level limit).logs
          = ((levelFiltered (botLogs store botname) level).drop (-limit).toNat).reverse) ∧
      ((((levelFiltered (botLogs store botname) level).length : Int) ≤ limit) →
        (get_logs store botname level limit).logs
          = (levelFiltered (botLogs store botname) level).reverse) := by
  intro store botname level limit
  constructor
  · intro h
    show (pyTail (levelFiltered (botLogs store botname) level) limit).reverse = _
    rw [pyTail_nonpos _ _ h]
  · intro h
    show (pyTail (levelFiltered (botLogs store botname) level) limit).reverse = _
    rw [pyTail_ge_length _ _ h]

/-- C1 witness: the amended statement instantiated at a one-entry store with
limits 0 and 10. -/
theorem c1_logs_limit_bounds_witness :
    (get_logs [("x", [entInfo1])] "x" "all" 0).logs = [entInfo1] ∧
    (get_logs [("x", [entInfo1])] "x" "all" 10).logs = [entInfo1] := by
  constructor
  · rw [(c1_logs_limit_bounds [("x", [entInfo1])] "x" "all" 0).1 (by decide)]
    decide
  · rw [(c1_logs_limit_bounds [("x", [entInfo1])] "x" "all" 10).2 (by decide)]
    decide

/-- C2: at a fresh slug with the unsupported frontendType "Widget" the handler
answers HTTP 500, not 400 — the `HTTPException(400, ...)` raised inside the
`try` block is itself an `Exception`, so the blanket `except Exception`
catches it and re-raises it as a 500 wrapping `str(e)`. -/
theorem c2_invalid_type_yields_500 :
    create_bot [] "newbot" "Widget" emptyBotConfig "uid-1" "2024-01-01T00:00:00" =
      ([], CreateResult.httpError 500
        ("Internal server error: " ++ "400: " ++ invalidTypeDetail)) := by
  decide

/-- C3: creating over an already-registered slug answers the conflict payload
holding the existing URL, leaves the store unchanged, and the stored record
stays retrievable byte-identical through `serve_bot_frontend`. -/
theorem c3_create_conflict_keeps_record :
    ∀ (store : DeployStore) (botname frontendType : String) (config : BotConfig)
      (uid now : String) (d : Deployment),
      store.lookup (generate_subdomain botname) = some d →
      create_bot store botname frontendType config uid now =
        (store, CreateResult.conflict "Botname already exists"
          (BASE_URL ++ "/bot/" ++ generate_subdomain botname)) ∧
      serve_bot_frontend ((create_bot store botname frontendType config uid now).1)
          (generate_subdomain botname) = ServeResult.html d.html := by
  intro store botname ft cfg uid now d h
  have hmain : create_bot store botname ft cfg uid now =
      (store, CreateResult.conflict "Botname already exists"
        (BASE_URL ++ "/bot/" ++ generate_subdomain botname)) := by
    simp [create_bot, h]
  refine ⟨hmain, ?_⟩
  rw [hmain]
  simp [serve_bot_frontend, h]

/-- C3 witness: "Bot_A" slugifies to the registered slug "bot-a"; the second
create conflicts and the stored HTML stays served verbatim. -/
theorem c3_create_conflict_keeps_record_witness :
    create_bot [("bot-a", sampleDeployment)] "Bot_A" "LLM" emptyBotConfig "u2" "n2" =
      ([("bot-a", sampleDeployment)], CreateResult.conflict "Botname already exists"
        (BASE_URL ++ "/bot/" ++ generate_subdomain "Bot_A")) ∧
    serve_bot_frontend
        ((create_bot [("bot-a", sampleDeployment)] "Bot_A" "LLM" emptyBotConfig "u2" "n2").1)
        (generate_subdomain "Bot_A") = ServeResult.html sampleDeployment.html :=
  c3_create_conflict_keeps_record [("bot-a", sampleDeployment)] "Bot_A" "LLM"
    emptyBotConfig "u2" "n2" sampleDeployment (by decide)

/-- C4 counterexample: with the empty filter string (which differs from "all")
the code does no filtering at all, while the claimed semantics would keep only
entries whose level is the empty string — the results differ on a one-entry
store. -/
theorem c4_counterexample_empty_filter :
    (("" : String) ≠ "all") ∧
    (get_logs [("x", [entInfo1])] "x" "" 1).logs ≠ querySpecStrict [entInfo1] "" 1 := by
  decide

/-- C4 (amended): for every store, filter and positive limit the query equals
the spec semantics in which the sentinel "all" OR the empty string disables
filtering; plus the spec's two concrete examples on levels
[info, success, info, error]. -/
theorem c4_query_semantics :
    (∀ (store : LogStore) (botname level : String) (limit : Int), 0 < limit →
        (get_logs store botname level limit).logs
          = querySpecAmended (botLogs store botname) level limit.toNat) ∧
    (get_logs sampleLogStore "x" "all" 2).logs = [entError, entInfo2] ∧
    (get_logs sampleLogStore "x" "info" 10).logs = [entInfo2, entInfo1] := by
  refine ⟨?_, by decide, by decide⟩
  intro store botname level limit h
  exact get_logs_pos_spec store botname level limit h

/-- C4 witness: the general statement instantiated at the sample store with
filter "success" and limit 1. -/
theorem c4_query_semantics_witness :
    (get_logs sampleLogStore "x" "success" 1).logs
      = querySpecAmended (botLogs sampleLogStore "x") "success" ((1 : Int).toNat) :=
  c4_query_semantics.1 sampleLogStore "x" "success" 1 (by decide)

/-- C5 counterexample: Unicode lower-casing breaks the claimed one-for-one
substitution and length preservation — dotted capital I (U+0130) lowers to
two characters, so its slug is "i-", length 2 for a length-1 input; and the
Kelvin sign (U+212A), a character outside `[a-z0-9]`, is not replaced by a
hyphen but becomes "k". -/
theorem c5_counterexample_unicode_lowering :
    (generate_subdomain (String.mk ['\u0130'])).length ≠ (String.mk ['\u0130']).length ∧
    generate_subdomain (String.mk ['\u0130']) = "i-" ∧
    generate_subdomain (String.mk ['\u212A']) = "k" := by
  decide

/-- C5 (amended): slugify substitutes per character over the *lower-cased*
string — one-for-one there, with no collapsing or trimming — so the output
length equals the lowered input's length: equal to the input's length on
all-ASCII input, but not in general, because Unicode lower-casing can expand
a character.  Slugify is deterministic and idempotent. -/
theorem c5_slugify_amended :
    ∀ (s : String),
      (generate_subdomain s).data = (s.data.flatMap pyLowerCharSeq).map slugChar ∧
      (generate_subdomain s).length = (s.data.flatMap pyLowerCharSeq).length ∧
      ((∀ c ∈ s.data, c.toNat < 128) → (generate_subdomain s).length = s.length) ∧
      generate_subdomain (generate_subdomain s) = generate_subdomain s ∧
      (∀ t : String, t = s → generate_subdomain t = generate_subdomain s) := by
  intro s
  refine ⟨rfl, ?_, ?_, generate_subdomain_idem s, ?_⟩
  · show ((s.data.flatMap pyLowerCharSeq).map slugChar).length
      = (s.data.flatMap pyLowerCharSeq).length
    exact List.length_map _ _
  · intro h
    show ((s.data.flatMap pyLowerCharSeq).map slugChar).length = s.data.length
    rw [List.length_map]
    exact ascii_lower_length s.data h
  · intro t h
    rw [h]

/-- C5 witness: the amended statement at the all-ASCII name "My Bot!" —
determinism, idempotence, and the ASCII length clause discharged there. -/
theorem c5_slugify_amended_witness :
    generate_subdomain "My Bot!" = generate_subdomain "My Bot!" ∧
    generate_subdomain (generate_subdomain "My Bot!") = generate_subdomain "My Bot!" ∧
    (generate_subdomain "My Bot!").length = ("My Bot!" : String).length :=
  ⟨(c5_slugify_amended "My Bot!").2.2.2.2 "My Bot!" rfl,
   (c5_slugify_amended "My Bot!").2.2.2.1,
   (c5_slugify_amended "My Bot!").2.2.1 (by decide)⟩

/-- C6: the chat response is keyword-matched on the lower-cased message in
source order — "hello", then "how are you", then "help", otherwise the fixed
echo prefix plus the unmodified input — and it depends only on the message
(not on the store, botname or timestamps). -/
theorem c6_chat_keyword_matching :
    (∀ (store : LogStore) (botname userMessage t1 t2 t3 : String),
        (handle_chat store botname userMessage t1 t2 t3).2.botResponse
          = chat_reply userMessage) ∧
    (∀ m : String, strContains (pyLowerStr m) "hello" = true →
        chat_reply m = "Hello! Nice to meet you! ðŸ‘‹") ∧
    (∀ m : String, strContains (pyLowerStr m) "hello" = false →
        strContains (pyLowerStr m) "how are you" = true →
        chat_reply m = "I\x27m doing great! Thanks for asking. How can I help you today?") ∧
    (∀ m : String, strContains (pyLowerStr m) "hello" = false →
        strContains (pyLowerStr m) "how are you" = false →
        strContains (pyLowerStr m) "help" = true →
        chat_reply m = "I\x27m here to help! Ask me anything and I\x27ll do my best to assist you.") ∧
    (∀ m : String, strContains (pyLowerStr m) "hello" = false →
        strContains (pyLowerStr m) "how are you" = false →
        strContains (pyLowerStr m) "help" = false →
        chat_reply m = "You said: " ++ m) ∧
    chat_reply "foo" = "You said: foo" := by
  refine ⟨fun store b m t1 t2 t3 => rfl, ?_, ?_, ?_, ?_, by decide⟩
  · intro m h1
    simp [chat_reply, h1]
  · intro m h1 h2
    simp [chat_reply, h1, h2]
  · intro m h1 h2 h3
    simp [chat_reply, h1, h2, h3]
  · intro m h1 h2 h3
    simp [chat_reply, h1, h2, h3]

/-- C6 witness: the spec's three concrete exchanges. -/
theorem c6_chat_keyword_matching_witness :
    chat_reply "Hello there" = "Hello! Nice to meet you! ðŸ‘‹" ∧
    chat_reply "how ARE you?"
      = "I\x27m doing great! Thanks for asking. How can I help you today?" ∧
    chat_reply "foo" = "You said: " ++ "foo" :=
  ⟨c6_chat_keyword_matching.2.1 "Hello there" (by decide),
   c6_chat_keyword_matching.2.2.1 "how ARE you?" (by decide) (by decide),
   c6_chat_keyword_matching.2.2.2.2.1 "foo" (by decide) (by decide) (by decide)⟩

/-- C7: every chat call appends exactly two entries to the requested bot's
sequence — first the info entry recording the user message, then the success
entry recording the response — leaving all other sequences untouched; and in
every reachable service state every stored log entry has level "info" or
"success". -/
theorem c7_chat_log_invariant :
    (∀ (store : LogStore) (botname userMessage t1 t2 t3 : String),
        ((handle_chat store botname userMessage t1 t2 t3).1).lookup botname =
          some (((store.lookup botname).getD []) ++
            [⟨t1, "info", "User: " ++ userMessage, botname⟩,
             ⟨t2, "success", "Bot: " ++ chat_reply userMessage, botname⟩]) ∧
        (∀ m : String, m ≠ botname →
          ((handle_chat store botname userMessage t1 t2 t3).1).lookup m
            = store.lookup m)) ∧
    (∀ (s : ServerState), Reachable s →
        ∀ (name : String) (entries : List LogEntry),
          s.logs.lookup name = some entries →
          ∀ e ∈ entries, e.level = "info" ∨ e.level = "success") := by
  constructor
  · intro store botname msg t1 t2 t3
    exact ⟨handle_chat_logs_self store botname msg t1 t2 t3,
           fun m h => handle_chat_logs_ne store botname msg t1 t2 t3 m h⟩
  · exact reachable_log_levels

/-- C7 witness: the level invariant read off a concrete reachable state (one
chat from the initial state), at the success entry it stored. -/
theorem c7_chat_log_invariant_witness :
    (LogEntry.mk "t2" "success" "Bot: You said: hi" "x").level = "info" ∨
    (LogEntry.mk "t2" "success" "Bot: You said: hi" "x").level = "success" :=
  c7_chat_log_invariant.2 ⟨[], (handle_chat [] "x" "hi" "t1" "t2" "t3").1⟩
    (Reachable.chatStep ⟨[], []⟩ Reachable.init "x" "hi" "t1" "t2" "t3")
    "x" [⟨"t1", "info", "User: hi", "x"⟩, ⟨"t2", "success", "Bot: You said: hi", "x"⟩]
    (by decide) (LogEntry.mk "t2" "success" "Bot: You said: hi" "x") (by decide)

/-- C8 counterexample: the chat template's two title sites do not share the
default "AI Chat" (the visible header site defaults to "AI Assistant"), and
the dashboard's two primaryColor sites do not share the default "#007bff"
(the heading colour site defaults to "#333"). -/
theorem c8_counterexample_defaults_not_uniform :
    (¬(∀ d ∈ titleDefaults chatTemplate, d = "AI Chat")) ∧
    (¬(∀ d ∈ primaryColorDefaults logsTemplate, d = "#007bff")) := by
  decide

/-- C8 (amended): when the config dict lacks the title key, the chat document
substitutes "AI Chat" at the head-title site but "AI Assistant" at the visible
header site; when it lacks primaryColor, the dashboard substitutes "#333" at
the heading-colour site and "#007bff" at the refresh-button site.  The chat
template's three primaryColor sites are uniformly "#007bff", and the
dashboard's two title sites are "Logs Dashboard" and "Bot Logs Dashboard". -/
theorem c8_template_default_sites :
    (titleDefaults chatTemplate).map (fun d => fieldGetStr DictField.absent d)
      = ["AI Chat", "AI Assistant"] ∧
    (primaryColorDefaults logsTemplate).map (fun d => fieldGetStr DictField.absent d)
      = ["#333", "#007bff"] ∧
    (primaryColorDefaults chatTemplate).map (fun d => fieldGetStr DictField.absent d)
      = ["#007bff", "#007bff", "#007bff"] ∧
    (titleDefaults logsTemplate).map (fun d => fieldGetStr DictField.absent d)
      = ["Logs Dashboard", "Bot Logs Dashboard"] := by
  decide

/-- C9: deleting a registered slug (keys are unique in a Python dict) answers
the confirmation, makes status and serve for that slug answer 404, and leaves
every other slug's record unchanged; deleting an unknown slug answers 404 and
leaves the store unchanged. -/
theorem c9_delete_semantics :
    ∀ (store : DeployStore) (slug : String),
      (∀ d : Deployment, store.lookup slug = some d → (store.map Prod.fst).Nodup →
        (delete_deployment store slug).2
            = DeleteResult.ok ("Bot \x27" ++ d.botname ++ "\x27 deleted successfully") ∧
        get_deployment_status (delete_deployment store slug).1 slug
            = StatusResult.notFound "Deployment not found" ∧
        serve_bot_frontend (delete_deployment store slug).1 slug
            = ServeResult.notFound ("Bot \x27" ++ slug ++ "\x27 not found") ∧
        (∀ other : String, other ≠ slug →
          (delete_deployment store slug).1.lookup other = store.lookup other)) ∧
      (store.lookup slug = none →
        delete_deployment store slug = (store, DeleteResult.notFound "Deployment not found")) := by
  intro store slug
  constructor
  · intro d hd hnd
    have h1 : delete_deployment store slug =
        (store.eraseP (fun p => p.1 == slug),
         DeleteResult.ok ("Bot \x27" ++ d.botname ++ "\x27 deleted successfully")) := by
      unfold delete_deployment
      rw [hd]
    have hnone : (store.eraseP (fun p => p.1 == slug)).lookup slug = none :=
      lookup_eraseP_self slug store hnd
    refine ⟨by rw [h1], ?_, ?_, ?_⟩
    · rw [h1]
      unfold get_deployment_status
      rw [hnone]
    · rw [h1]
      unfold serve_bot_frontend
      rw [hnone]
    · intro other h
      rw [h1]
      exact lookup_eraseP_ne slug other h store
  · intro h
    unfold delete_deployment
    rw [h]

/-- C9 witness: delete "bot-a" out of a two-deployment store ("bot-b"
survives, looked up unchanged), and delete an unknown slug on the empty
store. -/
theorem c9_delete_semantics_witness :
    (delete_deployment [("bot-a", sampleDeployment), ("bot-b", otherDeployment)] "bot-a").2
        = DeleteResult.ok ("Bot \x27" ++ sampleDeployment.botname ++ "\x27 deleted successfully") ∧
    (delete_deployment [("bot-a", sampleDeployment), ("bot-b", otherDeployment)] "bot-a").1.lookup "bot-b"
        = ([("bot-a", sampleDeployment), ("bot-b", otherDeployment)] : DeployStore).lookup "bot-b" ∧
    delete_deployment [] "ghost" = ([], DeleteResult.notFound "Deployment not found") := by
  have h := c9_delete_semantics [("bot-a", sampleDeployment), ("bot-b", otherDeployment)] "bot-a"
  have h1 := h.1 sampleDeployment (by decide) (by decide)
  exact ⟨h1.1, h1.2.2.2 "bot-b" (by decide), (c9_delete_semantics [] "ghost").2 (by decide)⟩

/-- C10: the slug-collision check runs before frontendType validation — if the
slug is registered, any frontendType (supported or not) gets the conflict
payload with the existing URL, and the store is unchanged. -/
theorem c10_conflict_check_first :
    ∀ (store : DeployStore) (botname frontendType : String) (config : BotConfig)
      (uid now : String),
      ((store.lookup (generate_subdomain botname))).isSome = true →
      (create_bot store botname frontendType config uid now).1 = store ∧
      (create_bot store botname frontendType config uid now).2 =
        CreateResult.conflict "Botname already exists"
          (BASE_URL ++ "/bot/" ++ generate_subdomain botname) := by
  intro store botname ft cfg uid now h
  constructor
  · simp [create_bot, h]
  · simp [create_bot, h]

/-- C10 witness: the registered slug "bot-a" with the invalid frontendType
"NotAType" still gets the conflict payload, not a validation error. -/
theorem c10_conflict_check_first_witness :
    (create_bot [("bot-a", sampleDeployment)] "Bot A" "NotAType" emptyBotConfig "u" "n").1
        = [("bot-a", sampleDeployment)] ∧
    (create_bot [("bot-a", sampleDeployment)] "Bot A" "NotAType" emptyBotConfig "u" "n").2
        = CreateResult.conflict "Botname already exists"
            (BASE_URL ++ "/bot/" ++ generate_subdomain "Bot A") :=
  c10_conflict_check_first [("bot-a", sampleDeployment)] "Bot A" "NotAType"
    emptyBotConfig "u" "n" (by decide)
